import Mathlib

/-!
Verification of the offline-tolerant, order-preserving network request
pipeline described in spec.md. The repository ships only the unit tests
(src/tests/unit/APITest.ts); the pipeline implementation itself
(src/libs/API, src/libs/Network/SequentialQueue, src/libs/Network/MainQueue,
src/libs/Network/NetworkStore, src/libs/actions/PersistedRequests,
src/libs/RequestThrottle) is not under src/, so the operational model below
is built from the spec and cross-checked against the scenarios the tests
exercise.
-/

namespace App

/-- Modelled from the spec: transport outcome classification (spec section 6 and 7);
the transport collaborator is out of scope and its implementation is not under src/. -/
inductive Outcome
  | success
  | authExpired
  | transientFailure
  | permanentFailure
deriving DecidableEq

/-- Modelled from the spec: a Command (spec section 3), immutable once enqueued.
The opaque payload is represented by a single string tag, as the tests do
(param1, content, ...). The command model src/libs/API is not under src/. -/
structure Command where
  name : String
  data : String
deriving DecidableEq

/-- Modelled from the spec: the fixed main-queue tick delay
CONST.NETWORK.PROCESS_REQUEST_DELAY_MS (spec section 4.5); the constant's
concrete value is not under src/, a representative value is used. -/
def PROCESS_REQUEST_DELAY_MS : Nat := 1000

/-- Modelled from the spec: the backoff base wait (spec section 4.4); concrete
value not given by the spec, representative value with base below the cap. -/
def RETRY_BASE_WAIT_MS : Nat := 10

/-- Modelled from the spec: the backoff ceiling (spec section 4.4). -/
def MAX_RETRY_WAIT_TIME_MS : Nat := 10000

/-- Modelled from the spec: the Backoff Calculator src/libs/RequestThrottle is
not under src/. Spec section 4.4: exponential growth (base times 2 ^ attempt)
capped at a maximum. The randomized jitter is modelled by its expected value,
which the spec requires to be non-decreasing in the attempt number. -/
def nextWait (attempt : Nat) : Nat :=
  min (RETRY_BASE_WAIT_MS * 2 ^ attempt) MAX_RETRY_WAIT_TIME_MS

/-- A call observed by the transport collaborator: virtual time at which it was
issued, command name, payload tag, and the auth token attached to it. -/
structure Call where
  time : Nat
  name : String
  data : String
  token : String
deriving DecidableEq

/-- Modelled from the spec: the combined state of the Connectivity and Credential
State (spec section 3), the Durable Request Store (section 4.2), the Ephemeral
Dispatcher queue (section 4.5), the Durable Dispatcher (section 4.6) and the
Reauthentication Protocol (section 4.7); none of these modules is under src/.
inFlight lists the durable sends currently in flight (the spec claims at most
one); authInFlight counts concurrent reauthentication attempts (the spec claims
at most one). log records every transport call in issue order. -/
structure QState where
  now : Nat
  isOffline : Bool
  hasReadRequiredDataFromStorage : Bool
  authToken : String
  credentials : Bool
  isAuthenticating : Bool
  authInFlight : Nat
  store : List Command
  mainQ : List Command
  inFlight : List Command
  retryCount : Nat
  retryWait : Option Nat
  needReauthDurable : Bool
  needReauthEph : Bool
  fatalAuth : Bool
  log : List Call
deriving DecidableEq

/-- Modelled from the spec: the initial process state after credentials have been
hydrated, online, with empty queues (spec sections 3 and 4.3). -/
def initState : QState :=
  { now := 0
    isOffline := false
    hasReadRequiredDataFromStorage := true
    authToken := ""
    credentials := true
    isAuthenticating := false
    authInFlight := 0
    store := []
    mainQ := []
    inFlight := []
    retryCount := 0
    retryWait := none
    needReauthDurable := false
    needReauthEph := false
    fatalAuth := false
    log := [] }

/-- Modelled from the spec: the discrete events of the single-threaded cooperative
schedule (spec section 5): caller-facing API calls (section 6), connectivity and
storage-hydration transitions (section 4.3), the Durable Dispatcher issuing and
resolving a send (section 4.6), the retry timer elapsing, the Reauthentication
Protocol issuing and resolving an attempt (section 4.7), an ephemeral send
coming back auth-expired, and the Ephemeral Dispatcher tick (section 4.5). -/
inductive Act
  | apiWrite (name data : String)
  | apiRead (name data : String)
  | sideEffect (name data : String)
  | goOnline
  | goOffline
  | loadStorage
  | resetStorageFlag
  | seqSend
  | seqResolve (o : Outcome)
  | retryTimerFire
  | ephemeralAuthExpired
  | authSend
  | authResolve (ok : Bool) (newToken : String)
  | mainTick
deriving DecidableEq

/-- Modelled from the spec: the Durable Dispatcher's dispatch guard (spec section
4.6): there is a head entry, prerequisites are read from storage, we are online,
no durable send is already in flight, the entry is not parked waiting for retry
or reauthentication, and reauthentication has not fatally failed. -/
def canSend (s : QState) : Bool :=
  !s.store.isEmpty && s.hasReadRequiredDataFromStorage && !s.isOffline &&
    s.inFlight.isEmpty && s.retryWait.isNone && !s.isAuthenticating &&
    !s.needReauthDurable && !s.fatalAuth

/-- Modelled from the spec: one small step of the pipeline. apiWrite appends to
the durable store (section 4.2); apiRead and sideEffect enqueue on the ephemeral
queue (section 4.5); seqSend issues the send of the store's head without
removing it (section 4.6: pop the head entry, do not remove from store yet);
seqResolve applies the outcome taxonomy (section 7): success and permanent
failure are terminal and remove the head, transient failure parks the entry in
WaitingForRetry with the backoff wait, auth-expiry parks it for
reauthentication; authSend is a no-op when isAuthenticating is already true
(section 4.7 step 1), otherwise it issues a single Authenticate transport call;
authResolve atomically updates the token and clears isAuthenticating on
success, or records a fatal auth error on failure; mainTick drains the
ephemeral queue after the fixed delay whenever no durable send is in flight,
firing each entry exactly once independent of outcome and never touching the
durable store. -/
def step (s : QState) : Act → QState
  | .apiWrite n d => { s with store := s.store ++ [⟨n, d⟩] }
  | .apiRead n d => { s with mainQ := s.mainQ ++ [⟨n, d⟩] }
  | .sideEffect n d => { s with mainQ := s.mainQ ++ [⟨n, d⟩] }
  | .goOnline => { s with isOffline := false }
  | .goOffline => { s with isOffline := true }
  | .loadStorage => { s with hasReadRequiredDataFromStorage := true }
  | .resetStorageFlag => { s with hasReadRequiredDataFromStorage := false }
  | .seqSend =>
      if canSend s then
        match s.store with
        | [] => s
        | e :: _ =>
            { s with inFlight := [e]
                     log := s.log ++ [⟨s.now, e.name, e.data, s.authToken⟩] }
      else s
  | .seqResolve o =>
      match s.inFlight with
      | [] => s
      | _ :: _ =>
          match o with
          | .success =>
              { s with inFlight := [], store := s.store.tail, retryCount := 0 }
          | .permanentFailure =>
              { s with inFlight := [], store := s.store.tail, retryCount := 0 }
          | .transientFailure =>
              { s with inFlight := []
                       retryWait := some (nextWait s.retryCount)
                       retryCount := s.retryCount + 1 }
          | .authExpired =>
              { s with inFlight := [], needReauthDurable := true }
  | .retryTimerFire =>
      match s.retryWait with
      | none => s
      | some w => { s with now := s.now + w, retryWait := none }
  | .ephemeralAuthExpired => { s with needReauthEph := true }
  | .authSend =>
      if s.isAuthenticating then s
      else if (s.needReauthDurable || s.needReauthEph) && s.credentials &&
          !s.fatalAuth then
        { s with isAuthenticating := true
                 authInFlight := s.authInFlight + 1
                 log := s.log ++ [⟨s.now, "Authenticate", "", s.authToken⟩] }
      else s
  | .authResolve ok tok =>
      if s.authInFlight = 0 then s
      else if ok then
        { s with authInFlight := s.authInFlight - 1
                 isAuthenticating := false
                 authToken := tok
                 needReauthDurable := false
                 needReauthEph := false }
      else
        { s with authInFlight := s.authInFlight - 1
                 isAuthenticating := false
                 fatalAuth := true }
  | .mainTick =>
      if s.inFlight.isEmpty then
        { s with now := s.now + PROCESS_REQUEST_DELAY_MS
                 mainQ := []
                 log := s.log ++ s.mainQ.map
                   (fun e => ⟨s.now + PROCESS_REQUEST_DELAY_MS, e.name, e.data,
                     s.authToken⟩) }
      else { s with now := s.now + PROCESS_REQUEST_DELAY_MS }

/-- Run a sequence of schedule events from a state. -/
def runActs (s : QState) (acts : List Act) : QState :=
  acts.foldl step s

/-- Modelled from the spec: the deterministic schedule the tests drive the
Durable Dispatcher through: while a reauthentication is pending, perform it
(consuming the next scripted transport outcome for the Authenticate call, which
refreshes the token to newToken on success); while the entry is parked in
WaitingForRetry, let the timer elapse; while the dispatch guard holds, issue the
head entry's send and resolve it with the next scripted outcome. fuel bounds
the number of schedule rounds. -/
def drive (fuel : Nat) (script : List Outcome) (s : QState) : QState :=
  match fuel with
  | 0 => s
  | f + 1 =>
      if s.needReauthDurable || s.needReauthEph then
        match script with
        | [] => s
        | o :: os =>
            drive f os
              (step (step s .authSend) (.authResolve (o == .success) "newToken"))
      else if s.retryWait.isSome then
        drive f script (step s .retryTimerFire)
      else if canSend s then
        match script with
        | [] => s
        | o :: os => drive f os (step (step s .seqSend) (.seqResolve o))
      else s

/-- The transport call a durable entry produces when sent at time t with token tk. -/
def callOf (t : Nat) (tk : String) (e : Command) : Call :=
  ⟨t, e.name, e.data, tk⟩

/-- The initial state with the offline flag set, as in the tests that set
ONYXKEYS.NETWORK to isOffline before queuing writes. -/
def offlineStart : QState := { initState with isOffline := true }

/-- Issue a sequence of API.write calls. -/
def enqueueWrites (ws : List Command) (s : QState) : QState :=
  runActs s (ws.map (fun c => Act.apiWrite c.name c.data))

/-- A state with one durable send in flight, used to instantiate the
universally quantified theorems at a concrete state. -/
def flightState : QState :=
  { initState with inFlight := [⟨"MockCommand", "value1"⟩]
                   store := [⟨"MockCommand", "value1"⟩] }

/-- A state in which a reauthentication attempt is already in flight while both
dispatchers have pending auth-expired triggers. -/
def authState : QState :=
  { initState with isAuthenticating := true
                   authInFlight := 1
                   needReauthDurable := true
                   needReauthEph := true
                   store := [⟨"MockCommand", "value1"⟩] }

/-- An offline state with a read queued on the ephemeral path and a write
pending in the durable store, as in the first test of APITest.ts. -/
def offlineReadState : QState :=
  { initState with isOffline := true
                   mainQ := [⟨"mock command", "value2"⟩]
                   store := [⟨"mock command", "value1"⟩] }

/-- Scenario of APITest.ts line 366: six writes queued offline with an auth
token already present, then connectivity resumes. -/
def c4Start : QState :=
  runActs { initState with authToken := "testToken" }
    ([Act.goOffline] ++
      (["value1", "value2", "value3", "value4", "value5", "value6"].map
        (fun d => Act.apiWrite "MockCommand" d)) ++ [Act.goOnline])

/-- Transport script for the reauthentication scenario: the first send of the
head entry comes back auth-expired, the Authenticate call and every later send
succeed. -/
def c4Script : List Outcome :=
  [Outcome.authExpired, Outcome.success, Outcome.success, Outcome.success,
    Outcome.success, Outcome.success, Outcome.success, Outcome.success]

/-- The state after the reauthentication scenario has run to quiescence. -/
def c4Final : QState := drive 20 c4Script c4Start

/-- Scenario of the retryExpectations helper (APITest.ts line 205): one write
queued offline, then connectivity resumes. -/
def c8Start : QState :=
  runActs initState
    [Act.goOffline, Act.apiWrite "mock command" "value1", Act.goOnline]

/-- Transport script for the retry scenario: a 5xx-class (transient) outcome
twice, then success on the third attempt. -/
def c8Script : List Outcome :=
  [Outcome.transientFailure, Outcome.transientFailure, Outcome.success]

/-- The retry scenario paused right after the third transport call has been
issued but before its outcome resolves. -/
def c8AfterThirdSend : QState := step (drive 4 c8Script c8Start) Act.seqSend

/-- The retry scenario after the third transport call resolves successfully. -/
def c8Final : QState := step c8AfterThirdSend (Act.seqResolve Outcome.success)

/-- Scenario of APITest.ts line 532: while online, a write, a read and another
write are submitted together; the durable queue then flushes both writes. -/
def c9Mid : QState :=
  drive 2 [Outcome.success, Outcome.success]
    (runActs initState
      [Act.apiWrite "MockCommandOne" "", Act.apiRead "MockCommandTwo" "",
        Act.apiWrite "MockCommandThree" ""])

/-- The same scenario after the ephemeral dispatcher's delayed tick fires. -/
def c9Final : QState := step c9Mid Act.mainTick

/-- Scenario of APITest.ts line 488: cold start where
hasReadRequiredDataFromStorage is reset, a write is queued offline, and the
client then comes online before credentials are read. -/
def coldStart : QState :=
  runActs initState
    [Act.resetStorageFlag, Act.goOffline, Act.apiWrite "MockCommand" "value1",
      Act.goOnline]

lemma runActs_cons (s : QState) (a : Act) (acts : List Act) :
    runActs s (a :: acts) = runActs (step s a) acts := rfl

lemma enqueueWrites_store (ws : List Command) (s : QState) :
    enqueueWrites ws s = { s with store := s.store ++ ws } := by
  induction ws generalizing s with
  | nil => simp [enqueueWrites, runActs]
  | cons c t ih =>
      have h1 : enqueueWrites (c :: t) s
          = enqueueWrites t (step s (Act.apiWrite c.name c.data)) := rfl
      rw [h1, ih]
      simp [step]

lemma drive_all_success (l : List Command) (lg : List Call) :
    drive l.length (List.replicate l.length Outcome.success)
        { initState with store := l, log := lg }
      = { initState with store := [], log := lg ++ l.map (callOf 0 "") } := by
  induction l generalizing lg with
  | nil => simp [drive]
  | cons e t ih =>
      have hstep : drive (e :: t).length
            (List.replicate (e :: t).length Outcome.success)
            { initState with store := e :: t, log := lg }
          = drive t.length (List.replicate t.length Outcome.success)
            { initState with store := t, log := lg ++ [callOf 0 "" e] } := rfl
      rw [hstep, ih]
      simp

/-- C1: for every sequence of write calls made while offline, after connectivity
resumes the transport receives exactly one call per write, in the exact order
the write calls were made, and the durable store is empty afterwards. -/
theorem offline_writes_replayed_in_order (ws : List Command) :
    (drive ws.length (List.replicate ws.length Outcome.success)
        (step (enqueueWrites ws offlineStart) Act.goOnline)).log
      = ws.map (callOf 0 "")
  ∧ (drive ws.length (List.replicate ws.length Outcome.success)
        (step (enqueueWrites ws offlineStart) Act.goOnline)).store = [] := by
  have h1 : step (enqueueWrites ws offlineStart) Act.goOnline
      = { initState with store := ws, log := [] } := by
    rw [enqueueWrites_store]
    simp [step, offlineStart, initState]
  rw [h1, drive_all_success]
  simp

/-- C2: a durable entry is removed from the store only by the terminal outcome
(success or permanent failure) of its own send; resolving a send with a
transient failure or an auth-expired response leaves the store unchanged, and
no step of the pipeline ever shrinks the store except a terminal resolution,
which removes exactly the in-flight head entry. -/
theorem entry_removed_only_on_terminal_outcome :
    (∀ s : QState,
        (step s (Act.seqResolve Outcome.transientFailure)).store = s.store
      ∧ (step s (Act.seqResolve Outcome.authExpired)).store = s.store)
  ∧ (∀ (s : QState) (a : Act),
      s.store.length ≤ (step s a).store.length
      ∨ ((a = Act.seqResolve Outcome.success
            ∨ a = Act.seqResolve Outcome.permanentFailure)
          ∧ s.inFlight ≠ [] ∧ (step s a).store = s.store.tail)) := by
  constructor
  · intro s
    cases hf : s.inFlight with
    | nil => constructor <;> simp [step, hf]
    | cons e t => constructor <;> simp [step, hf]
  · intro s a
    cases a with
    | apiWrite n d => left; simp [step]
    | apiRead n d => left; simp [step]
    | sideEffect n d => left; simp [step]
    | goOnline => left; simp [step]
    | goOffline => left; simp [step]
    | loadStorage => left; simp [step]
    | resetStorageFlag => left; simp [step]
    | seqSend =>
        left
        by_cases h : canSend s
        · cases hs : s.store <;> simp [step, h, hs]
        · simp [step, h]
    | seqResolve o =>
        cases hf : s.inFlight with
        | nil => left; simp [step, hf]
        | cons e t =>
            cases o with
            | success =>
                right
                exact ⟨Or.inl rfl, by simp [hf], by simp [step, hf]⟩
            | permanentFailure =>
                right
                exact ⟨Or.inr rfl, by simp [hf], by simp [step, hf]⟩
            | transientFailure => left; simp [step, hf]
            | authExpired => left; simp [step, hf]
    | retryTimerFire =>
        left; cases hw : s.retryWait <;> simp [step, hw]
    | ephemeralAuthExpired => left; simp [step]
    | authSend =>
        left
        by_cases h1 : s.isAuthenticating
        · simp [step, h1]
        · by_cases h2 : (s.needReauthDurable || s.needReauthEph) &&
              s.credentials && !s.fatalAuth
          · simp [step, h1, h2]
          · simp [step, h1, h2]
    | authResolve ok tok =>
        left
        by_cases h : s.authInFlight = 0
        · simp [step, h]
        · cases ok <;> simp [step, h]
    | mainTick =>
        left
        by_cases h : s.inFlight.isEmpty <;> simp [step, h]

/-- C7: the backoff wait is non-decreasing in the attempt number up to the fixed
cap, the first wait is the base value, on a transient failure the dispatcher
parks the entry for exactly the computed wait and increments the attempt count,
and a successful send resets the attempt count so the next computed wait is the
base value again. -/
theorem backoff_monotone_capped_resets :
    (∀ m n : Nat, m ≤ n → nextWait m ≤ nextWait n)
  ∧ (∀ n : Nat, nextWait n ≤ MAX_RETRY_WAIT_TIME_MS)
  ∧ nextWait 0 = RETRY_BASE_WAIT_MS
  ∧ (∀ s : QState, s.inFlight ≠ [] →
        (step s (Act.seqResolve Outcome.transientFailure)).retryWait
            = some (nextWait s.retryCount)
      ∧ (step s (Act.seqResolve Outcome.transientFailure)).retryCount
            = s.retryCount + 1)
  ∧ (∀ s : QState, s.inFlight ≠ [] →
        (step s (Act.seqResolve Outcome.success)).retryCount = 0
      ∧ nextWait (step s (Act.seqResolve Outcome.success)).retryCount
            = RETRY_BASE_WAIT_MS) := by
  refine ⟨?_, ?_, ?_, ?_, ?_⟩
  · intro m n h
    exact min_le_min
      (Nat.mul_le_mul_left _ (Nat.pow_le_pow_right (by norm_num) h)) le_rfl
  · intro n
    exact min_le_right _ _
  · decide
  · intro s h
    cases hf : s.inFlight with
    | nil => exact absurd hf h
    | cons e t => constructor <;> simp [step, hf]
  · intro s h
    cases hf : s.inFlight with
    | nil => exact absurd hf h
    | cons e t =>
        constructor <;> simp [step, hf, nextWait, RETRY_BASE_WAIT_MS,
          MAX_RETRY_WAIT_TIME_MS]

/-- Witness for the backoff theorem at concrete inputs: attempt 1 against
attempt 2, and the in-flight state flightState. -/
theorem backoff_monotone_capped_resets_witness :
    nextWait 1 ≤ nextWait 2
  ∧ ((step flightState (Act.seqResolve Outcome.transientFailure)).retryWait
        = some (nextWait flightState.retryCount)
      ∧ (step flightState (Act.seqResolve Outcome.transientFailure)).retryCount
        = flightState.retryCount + 1)
  ∧ ((step flightState (Act.seqResolve Outcome.success)).retryCount = 0
      ∧ nextWait (step flightState (Act.seqResolve Outcome.success)).retryCount
        = RETRY_BASE_WAIT_MS) :=
  ⟨backoff_monotone_capped_resets.1 1 2 (by norm_num),
    backoff_monotone_capped_resets.2.2.2.1 flightState (by simp [flightState]),
    backoff_monotone_capped_resets.2.2.2.2 flightState (by simp [flightState])⟩

lemma step_inFlight_le (s : QState) (a : Act) (h : s.inFlight.length ≤ 1) :
    (step s a).inFlight.length ≤ 1 := by
  cases a with
  | apiWrite n d => simpa [step] using h
  | apiRead n d => simpa [step] using h
  | sideEffect n d => simpa [step] using h
  | goOnline => simpa [step] using h
  | goOffline => simpa [step] using h
  | loadStorage => simpa [step] using h
  | resetStorageFlag => simpa [step] using h
  | seqSend =>
      by_cases hc : canSend s
      · cases hs : s.store with
        | nil => simpa [step, hc, hs] using h
        | cons e t => simp [step, hc, hs]
      · simpa [step, hc] using h
  | seqResolve o =>
      cases hf : s.inFlight with
      | nil => simp [step, hf]
      | cons e t => cases o <;> simp [step, hf]
  | retryTimerFire =>
      cases hw : s.retryWait with
      | none => simpa [step, hw] using h
      | some w => simpa [step, hw] using h
  | ephemeralAuthExpired => simpa [step] using h
  | authSend =>
      by_cases h1 : s.isAuthenticating
      · simpa [step, h1] using h
      · by_cases h2 : (s.needReauthDurable || s.needReauthEph) &&
            s.credentials && !s.fatalAuth
        · simpa [step, h1, h2] using h
        · simpa [step, h1, h2] using h
  | authResolve ok tok =>
      by_cases h0 : s.authInFlight = 0
      · simpa [step, h0] using h
      · cases ok <;> simpa [step, h0] using h
  | mainTick =>
      by_cases he : s.inFlight.isEmpty <;> simpa [step, he] using h

lemma runActs_inFlight_le (acts : List Act) :
    ∀ s : QState, s.inFlight.length ≤ 1 → (runActs s acts).inFlight.length ≤ 1 := by
  induction acts with
  | nil => intro s h; exact h
  | cons a as ih =>
      intro s h
      rw [runActs_cons]
      exact ih _ (step_inFlight_le s a h)

/-- C3: at every instant at most one durable send is in flight — in every state
reachable from the initial state, the in-flight list of the durable dispatcher
has at most one element; moreover, while a send is in flight a dispatch event
is a no-op, so the send of the next entry is never issued before the current
one resolves (to success, a definitive failure) or is parked for retry or
reauthentication. -/
theorem durable_send_single_flight :
    (∀ acts : List Act, (runActs initState acts).inFlight.length ≤ 1)
  ∧ (∀ s : QState, s.inFlight ≠ [] → step s Act.seqSend = s) := by
  constructor
  · intro acts
    exact runActs_inFlight_le acts initState (by simp [initState])
  · intro s h
    have hc : canSend s = false := by
      have he : s.inFlight.isEmpty = false := by
        cases hf : s.inFlight with
        | nil => exact absurd hf h
        | cons e t => simp
      simp [canSend, he]
    simp [step, hc]

/-- Witness for the single-flight theorem: a short reachable run, and the
concrete in-flight state flightState on which a dispatch event is a no-op. -/
theorem durable_send_single_flight_witness :
    (runActs initState
        [Act.apiWrite "MockCommand" "value1", Act.seqSend]).inFlight.length ≤ 1
  ∧ step flightState Act.seqSend = flightState :=
  ⟨durable_send_single_flight.1 _,
    durable_send_single_flight.2 flightState (by simp [flightState])⟩

lemma step_auth_inv (s : QState) (a : Act)
    (h : s.authInFlight = (if s.isAuthenticating then 1 else 0)) :
    (step s a).authInFlight
      = (if (step s a).isAuthenticating then 1 else 0) := by
  cases a with
  | apiWrite n d => simpa [step] using h
  | apiRead n d => simpa [step] using h
  | sideEffect n d => simpa [step] using h
  | goOnline => simpa [step] using h
  | goOffline => simpa [step] using h
  | loadStorage => simpa [step] using h
  | resetStorageFlag => simpa [step] using h
  | seqSend =>
      by_cases hc : canSend s
      · cases hs : s.store with
        | nil => simpa [step, hc, hs] using h
        | cons e t => simpa [step, hc, hs] using h
      · simpa [step, hc] using h
  | seqResolve o =>
      cases hf : s.inFlight with
      | nil => simpa [step, hf] using h
      | cons e t => cases o <;> simpa [step, hf] using h
  | retryTimerFire =>
      cases hw : s.retryWait with
      | none => simpa [step, hw] using h
      | some w => simpa [step, hw] using h
  | ephemeralAuthExpired => simpa [step] using h
  | authSend =>
      by_cases h1 : s.isAuthenticating
      · simpa [step, h1] using h
      · by_cases h2 : (s.needReauthDurable || s.needReauthEph) &&
            s.credentials && !s.fatalAuth
        · simp only [step, h1, if_false, h2, if_true]
          simp [h, h1]
        · simpa [step, h1, h2] using h
  | authResolve ok tok =>
      by_cases h0 : s.authInFlight = 0
      · simpa [step, h0] using h
      · have h1 : s.isAuthenticating = true := by
          by_contra hby
          simp only [Bool.not_eq_true] at hby
          rw [hby] at h
          simp at h
          exact h0 h
        cases ok <;> simp [step, h0, h1, h]
  | mainTick =>
      by_cases he : s.inFlight.isEmpty <;> simpa [step, he] using h

lemma runActs_auth_inv (acts : List Act) :
    ∀ s : QState, s.authInFlight = (if s.isAuthenticating then 1 else 0) →
      (runActs s acts).authInFlight
        = (if (runActs s acts).isAuthenticating then 1 else 0) := by
  induction acts with
  | nil => intro s h; exact h
  | cons a as ih =>
      intro s h
      rw [runActs_cons]
      exact ih _ (step_auth_inv s a h)

/-- C5: reauthentication is single-flight — in every reachable state there is at
most one concurrent reauthentication attempt (and exactly one precisely when
isAuthenticating is true), and any reauthentication trigger arriving while
isAuthenticating is true is a no-op that issues no second Authenticate call,
whichever dispatcher it comes from. -/
theorem reauthentication_single_flight :
    (∀ acts : List Act, (runActs initState acts).authInFlight ≤ 1
      ∧ (runActs initState acts).authInFlight
          = (if (runActs initState acts).isAuthenticating then 1 else 0))
  ∧ (∀ s : QState, s.isAuthenticating = true → step s Act.authSend = s) := by
  constructor
  · intro acts
    have h := runActs_auth_inv acts initState (by simp [initState])
    refine ⟨?_, h⟩
    rw [h]
    by_cases hb : (runActs initState acts).isAuthenticating <;> simp [hb]
  · intro s h
    simp [step, h]

/-- Witness for the reauthentication single-flight theorem: a reachable run,
and the concrete state authState where an attempt is in flight and both
dispatchers have pending triggers, on which a further trigger is a no-op. -/
theorem reauthentication_single_flight_witness :
    ((runActs initState
        [Act.ephemeralAuthExpired, Act.authSend]).authInFlight ≤ 1)
  ∧ step authState Act.authSend = authState :=
  ⟨(reauthentication_single_flight.1 _).1,
    reauthentication_single_flight.2 authState (by simp [authState])⟩

/-- C4: when the first queued write receives an auth-expired response once and
success afterwards, exactly one Authenticate call is made, followed by exactly
one retried send of the same original command carrying the refreshed token;
the retried command keeps its position ahead of the other durable entries,
which follow in their original order, and the durable store ends empty. -/
theorem reauth_once_then_replay_with_refreshed_token :
    c4Final.log.map (fun c => (c.name, c.data))
      = [("MockCommand", "value1"), ("Authenticate", ""),
          ("MockCommand", "value1"), ("MockCommand", "value2"),
          ("MockCommand", "value3"), ("MockCommand", "value4"),
          ("MockCommand", "value5"), ("MockCommand", "value6")]
  ∧ (c4Final.log.filter (fun c => c.name == "Authenticate")).length = 1
  ∧ c4Final.log.map (fun c => c.token)
      = ["testToken", "testToken", "newToken", "newToken", "newToken",
          "newToken", "newToken", "newToken"]
  ∧ c4Final.store = [] :=
  ⟨rfl, rfl, rfl, rfl⟩

/-- C6: while hasReadRequiredDataFromStorage is false the durable dispatcher
performs no transport send and removes nothing from the store, even when the
client is online and entries are queued (as in the coldStart state); as soon as
the flag becomes true, the queued entry is sent and the store drains. -/
theorem no_durable_send_until_storage_read :
    (∀ s : QState, s.hasReadRequiredDataFromStorage = false →
        (step s Act.seqSend).log = s.log ∧ (step s Act.seqSend).store = s.store)
  ∧ (step coldStart Act.seqSend).log = []
  ∧ (drive 1 [Outcome.success] (step coldStart Act.loadStorage)).log
      = [callOf 0 "" ⟨"MockCommand", "value1"⟩]
  ∧ (drive 1 [Outcome.success] (step coldStart Act.loadStorage)).store = [] := by
  refine ⟨?_, rfl, rfl, rfl⟩
  intro s h
  have hc : canSend s = false := by simp [canSend, h]
  simp [step, hc]

/-- Witness for the storage-read gating theorem at the concrete coldStart
state, which is online with one queued entry but has not read storage. -/
theorem no_durable_send_until_storage_read_witness :
    coldStart.hasReadRequiredDataFromStorage = false
  ∧ (step coldStart Act.seqSend).log = coldStart.log
  ∧ (step coldStart Act.seqSend).store = coldStart.store := by
  have h := no_durable_send_until_storage_read.1 coldStart rfl
  exact ⟨rfl, h.1, h.2⟩

/-- C8: when a queued write receives a transient server outcome twice and then
succeeds, exactly three transport calls are made for it, the inter-call delays
are the scheduled backoff waits and strictly increase, the durable store stays
non-empty until the third call resolves (including while the third call is in
flight), and is empty afterwards. -/
theorem transient_failures_retried_with_increasing_delay :
    c8Final.log.map (fun c => (c.name, c.data))
      = [("mock command", "value1"), ("mock command", "value1"),
          ("mock command", "value1")]
  ∧ c8Final.log.map (fun c => c.time)
      = [0, nextWait 0, nextWait 0 + nextWait 1]
  ∧ nextWait 0 < nextWait 1
  ∧ (drive 1 c8Script c8Start).store.length = 1
  ∧ (drive 3 c8Script c8Start).store.length = 1
  ∧ c8AfterThirdSend.store.length = 1
  ∧ c8AfterThirdSend.log.length = 3
  ∧ c8Final.store = [] :=
  ⟨rfl, rfl, by decide, rfl, rfl, rfl, rfl, rfl⟩

/-- C9: a read and two writes submitted together while online: both writes
reach the transport before the read and in write-submission order at the
moment the durable queue finishes (time 0), and the read reaches the transport
only at the fixed delay PROCESS_REQUEST_DELAY_MS after write completion. -/
theorem writes_block_read_until_after_delay :
    c9Mid.log.map (fun c => c.name) = ["MockCommandOne", "MockCommandThree"]
  ∧ c9Mid.now = 0
  ∧ c9Final.log.map (fun c => (c.name, c.time))
      = [("MockCommandOne", 0), ("MockCommandThree", 0),
          ("MockCommandTwo", c9Mid.now + PROCESS_REQUEST_DELAY_MS)]
  ∧ c9Final.store = [] :=
  ⟨rfl, rfl, rfl, rfl⟩

/-- C10: the ephemeral path never blocks on connectivity — whenever no durable
send is in flight, the delayed tick dispatches every queued ephemeral command
to the transport exactly once, whatever the offline flag is, empties the
ephemeral queue (no retry), and leaves the durable store untouched (no
persistence). -/
theorem ephemeral_dispatch_never_blocks_on_connectivity (s : QState)
    (h : s.inFlight = []) :
    (∀ b : Bool,
        (step { s with isOffline := b } Act.mainTick).log
          = s.log ++ s.mainQ.map
              (callOf (s.now + PROCESS_REQUEST_DELAY_MS) s.authToken)
      ∧ (step { s with isOffline := b } Act.mainTick).mainQ = []
      ∧ (step { s with isOffline := b } Act.mainTick).store = s.store) := by
  intro b
  have he : ({ s with isOffline := b } : QState).inFlight.isEmpty = true := by
    simp [h]
  refine ⟨?_, ?_, ?_⟩ <;> simp [step, he, callOf]

/-- Witness for the ephemeral-path theorem at the concrete offline state
offlineReadState, which has a read queued and a write pending in the store. -/
theorem ephemeral_dispatch_never_blocks_witness :
    (step { offlineReadState with isOffline := true } Act.mainTick).log
      = offlineReadState.log ++ offlineReadState.mainQ.map
          (callOf (offlineReadState.now + PROCESS_REQUEST_DELAY_MS)
            offlineReadState.authToken)
  ∧ (step { offlineReadState with isOffline := true } Act.mainTick).mainQ = []
  ∧ (step { offlineReadState with isOffline := true } Act.mainTick).store
      = offlineReadState.store :=
  ephemeral_dispatch_never_blocks_on_connectivity offlineReadState rfl true

end App
